import Mathlib

/-!
Verification development for the GritAudit weekly-audit pipeline
(`src/scripts/run-audit.js`).

The JavaScript source is shallowly embedded: JS numbers are modelled as `ℚ`
(all numeric literals and comparisons in the source are exact in `ℚ`),
nullable values as `Option`, fallible asynchronous calls as `Except`, and the
DOM is abstracted to the queries the scanner actually performs (the list of
`img` elements with their attributes, the list of `button` elements with the
attributes the CSS selector inspects, and the body text).
-/

/-- Model of JavaScript `Math.round`: round half toward positive infinity. -/
def jsRound (q : ℚ) : Int := Int.floor (q + 1/2)

/-- Left-pad a natural number below 1000 to three decimal digits. -/
def pad3 (n : Nat) : String :=
  if n < 10 then "00" ++ toString n
  else if n < 100 then "0" ++ toString n
  else toString n

/-- Model of JavaScript `Number.prototype.toFixed(3)` for non-negative
arguments: the numerator of the closest multiple of 1/1000, ties toward the
larger numerator, printed with exactly three fraction digits. -/
def toFixed3Nonneg (q : ℚ) : String :=
  let n : Int := jsRound (q * 1000)
  toString (n / 1000) ++ "." ++ pad3 ((n % 1000).toNat)

/-- Model of JavaScript `toFixed(3)`: negative inputs are formatted from the
absolute value with a leading minus sign (ECMA-262 Number.prototype.toFixed). -/
def toFixed3 (q : ℚ) : String :=
  if q < 0 then "-" ++ toFixed3Nonneg (-q) else toFixed3Nonneg q

/-- Whether `pat` occurs at the start of `l`. -/
def charsMatchAt : List Char → List Char → Bool
  | [], _ => true
  | _ :: _, [] => false
  | p :: ps, c :: cs => p == c && charsMatchAt ps cs

/-- Whether `pat` occurs contiguously somewhere in `l`. -/
def charsContain (l pat : List Char) : Bool :=
  match l with
  | [] => charsMatchAt pat []
  | _ :: cs => charsMatchAt pat l || charsContain cs pat

/-- Model of JavaScript `String.prototype.includes`. -/
def strIncludes (s pat : String) : Bool := charsContain s.data pat.data

/-- Drop leading whitespace characters. -/
def dropLeadingWs : List Char → List Char
  | [] => []
  | c :: cs => if c.isWhitespace then dropLeadingWs cs else c :: cs

/-- Strip whitespace from both ends of a character list. -/
def trimChars (l : List Char) : List Char :=
  ((dropLeadingWs l).reverse |> dropLeadingWs).reverse

/-- Model of JavaScript `String.prototype.trim`. -/
def jsTrim (s : String) : String := String.mk (trimChars s.data)

/-- Model of JavaScript `String.prototype.toLowerCase`. -/
def jsToLower (s : String) : String := String.mk (s.data.map Char.toLower)

/-- Scan for the source's price regex `\$[\d,.]+`: a dollar sign followed by
at least one digit, comma or period. -/
def priceScan : List Char → Bool
  | [] => false
  | c :: cs =>
    (c == '$' && (match cs with
      | d :: _ => d.isDigit || d == ',' || d == '.'
      | [] => false)) || priceScan cs

/-- Model of `/\$[\d,.]+/.test(s)` from the source. -/
def jsPriceTest (s : String) : Bool := priceScan s.data

/-- Model of `/(shipping|returns|money[- ]back|guarantee)/i.test(s)` from the
source: case-insensitive via lowercasing, alternation via substring search. -/
def jsShippingTest (s : String) : Bool :=
  let t := jsToLower s
  strIncludes t "shipping" || strIncludes t "returns" ||
    strIncludes t "money-back" || strIncludes t "money back" ||
    strIncludes t "guarantee"

/-- The four Lighthouse category scores of a `ScoreReport` (run-audit.js
lines 36-41). -/
structure Scores where
  performance : Int
  accessibility : Int
  bestPractices : Int
  seo : Int
deriving DecidableEq, Repr

/-- The four metrics of a `ScoreReport`; `none` is the JS `null` sentinel
(run-audit.js lines 43-48). -/
structure Metrics where
  lcp_ms : Option ℚ
  cls : Option ℚ
  tbt_ms : Option ℚ
  speedIndex_ms : Option ℚ
deriving DecidableEq, Repr

/-- The `{scores, metrics}` shape returned by `runLighthouse` (the raw `lhr`
report it also carries is consumed by nothing modelled here). -/
structure LighthouseResult where
  scores : Scores
  metrics : Metrics
deriving DecidableEq, Repr

/-- One Lighthouse category: its `score` may be `null` (absent). -/
structure LhCategory where
  score : Option ℚ
deriving DecidableEq, Repr

/-- One Lighthouse audit entry: its `numericValue` may be missing. -/
structure LhAudit where
  numericValue : Option ℚ
deriving DecidableEq, Repr

/-- The `lhr.categories` object. -/
structure LhCategories where
  performance : LhCategory
  accessibility : LhCategory
  bestPractices : LhCategory
  seo : LhCategory
deriving DecidableEq, Repr

/-- The `lhr.audits` entries the source reads; a whole audit may be absent
(the source guards with `?.`). -/
structure LhAudits where
  largestContentfulPaint : Option LhAudit
  cumulativeLayoutShift : Option LhAudit
  totalBlockingTime : Option LhAudit
  speedIndex : Option LhAudit
deriving DecidableEq, Repr

/-- The part of a Lighthouse `lhr` result object the source reads. -/
structure Lhr where
  categories : LhCategories
  audits : LhAudits
deriving DecidableEq, Repr

/-- Normalization performed by `runLighthouse` (run-audit.js lines 32-50) on
the raw `lhr`: `Math.round((category.score || 0) * 100)` for each score
(`x || 0` equals `Option.getD 0` on `Option ℚ`: the only falsy rational is 0,
which `|| 0` also maps to 0), and `audits[k]?.numericValue ?? null` for each
metric (`??` passes through every non-null value, including 0).  Browser
launch and teardown are outside the embedding; this is the pure
normalization applied to the scoring service's report. -/
def runLighthouse (lhr : Lhr) : LighthouseResult :=
  { scores :=
      { performance := jsRound (lhr.categories.performance.score.getD 0 * 100)
        accessibility := jsRound (lhr.categories.accessibility.score.getD 0 * 100)
        bestPractices := jsRound (lhr.categories.bestPractices.score.getD 0 * 100)
        seo := jsRound (lhr.categories.seo.score.getD 0 * 100) }
    metrics :=
      { lcp_ms := lhr.audits.largestContentfulPaint.bind fun a => a.numericValue
        cls := lhr.audits.cumulativeLayoutShift.bind fun a => a.numericValue
        tbt_ms := lhr.audits.totalBlockingTime.bind fun a => a.numericValue
        speedIndex_ms := lhr.audits.speedIndex.bind fun a => a.numericValue } }

/-- An `img` element as the scanner sees it: the five attributes it reads,
each possibly absent (run-audit.js lines 62-68). -/
structure ImgElement where
  src : Option String
  alt : Option String
  width : Option String
  height : Option String
  loading : Option String
deriving DecidableEq, Repr

/-- A `button` element as the add-to-cart selector
`form[action*='cart/add'] button, button[name='add'], button[type='submit']`
sees it: whether it sits inside a form whose `action` contains `cart/add`,
its `name` and `type` attributes, and its text content. -/
structure ButtonElement where
  inCartAddForm : Bool
  nameAttr : Option String
  typeAttr : Option String
  textContent : String
deriving DecidableEq, Repr

/-- The abstraction of a parsed document: the `img` elements in document
order, the `button` elements in document order, whether the search selector
`form[action*="search"], input[type="search"], input[name="q"]` matches, and
`doc.body?.textContent`. -/
structure Document where
  imgs : List ImgElement
  buttons : List ButtonElement
  hasSearchMatch : Bool
  bodyText : Option String
deriving DecidableEq, Repr

/-- One record of the scanner's image inventory (run-audit.js lines 62-69):
`src` defaulted to the empty string by `|| ""`, the other attributes raw. -/
structure ImageRecord where
  src : String
  alt : Option String
  width : Option String
  height : Option String
  loading : Option String
deriving DecidableEq, Repr

/-- The `ScanResult` shape returned by `scanPage` (run-audit.js lines 82-91). -/
structure ScanResult where
  imageCount : Nat
  missingAltCount : Nat
  lazyCount : Nat
  hasSearch : Bool
  hasAddToCart : Bool
  hasPrice : Bool
  hasShippingText : Bool
  images : List ImageRecord
deriving DecidableEq, Repr

/-- The mapping of run-audit.js lines 62-69 from an `img` element to its
inventory record. -/
def toImageRecord (img : ImgElement) : ImageRecord :=
  { src := img.src.getD ""
    alt := img.alt
    width := img.width
    height := img.height
    loading := img.loading }

/-- The filter of run-audit.js line 71: `i.alt === null || i.alt.trim() === ""`. -/
def altMissing (i : ImageRecord) : Bool :=
  match i.alt with
  | none => true
  | some a => jsTrim a == ""

/-- An image whose `alt` attribute is present and non-empty after trimming:
the complement of `altMissing`. -/
def altNonEmpty (i : ImageRecord) : Bool :=
  match i.alt with
  | none => false
  | some a => !(jsTrim a == "")

/-- The filter of run-audit.js line 72: `(i.loading || "").toLowerCase() === "lazy"`. -/
def isLazy (i : ImageRecord) : Bool :=
  jsToLower (i.loading.getD "") == "lazy"

/-- Whether a button matches the selector
`form[action*='cart/add'] button, button[name='add'], button[type='submit']`
(run-audit.js line 75). -/
def matchesCartSelector (b : ButtonElement) : Bool :=
  b.inCartAddForm || b.nameAttr == some "add" || b.typeAttr == some "submit"

/-- The pure scan of run-audit.js lines 62-91 over the parsed document (the
HTTP fetch and DOM construction of lines 57-60 are outside the embedding). -/
def scanPage (doc : Document) : ScanResult :=
  let images := doc.imgs.map toImageRecord
  let missingAltCount := (images.filter altMissing).length
  let lazyCount := (images.filter isLazy).length
  let hasSearch := doc.hasSearchMatch
  let addToCartButtons :=
    (doc.buttons.filter matchesCartSelector).map fun b => jsToLower (jsTrim b.textContent)
  let hasAddToCart :=
    addToCartButtons.any (fun t => strIncludes t "add" && strIncludes t "cart") ||
      decide (addToCartButtons.length > 0)
  let hasPrice := jsPriceTest (doc.bodyText.getD "")
  let hasShippingText := jsShippingTest (doc.bodyText.getD "")
  { imageCount := images.length
    missingAltCount := missingAltCount
    lazyCount := lazyCount
    hasSearch := hasSearch
    hasAddToCart := hasAddToCart
    hasPrice := hasPrice
    hasShippingText := hasShippingText
    images := images.take 40 }

/-- Finding severities. -/
inductive Severity where
  | HIGH
  | MED
  | LOW
deriving DecidableEq, Repr

/-- One finding (run-audit.js lines 98-134). -/
structure Finding where
  severity : Severity
  type : String
  recommendation : String
deriving DecidableEq, Repr

/-- Rule 1 of `prioritizeFindings` (run-audit.js lines 97-103): the zero-or-one
findings it pushes.  Fires iff `lcp_ms !== null && lcp_ms > 3500`. -/
def rule1 (lhMobile : LighthouseResult) : List Finding :=
  match lhMobile.metrics.lcp_ms with
  | none => []
  | some v =>
    if v > 3500 then
      [{ severity := Severity.HIGH
         type := "Performance"
         recommendation := "Mobile LCP is " ++ toString (jsRound v) ++
           "ms. Compress/resize above-the-fold images and reduce heavy sections. Target < 2500ms." }]
    else []

/-- Rule 2 (run-audit.js lines 105-111): fires iff `cls !== null && cls > 0.1`. -/
def rule2 (lhMobile : LighthouseResult) : List Finding :=
  match lhMobile.metrics.cls with
  | none => []
  | some v =>
    if v > 0.1 then
      [{ severity := Severity.MED
         type := "UX / Layout"
         recommendation := "Mobile CLS is " ++ toFixed3 v ++
           ". Ensure images have width/height set; avoid late-loading banners/popups pushing content. Target < 0.10." }]
    else []

/-- Rule 3 (run-audit.js lines 113-119): fires iff `scan.missingAltCount > 0`. -/
def rule3 (scan : ScanResult) : List Finding :=
  if scan.missingAltCount > 0 then
    [{ severity := Severity.MED
       type := "Accessibility / SEO"
       recommendation := toString scan.missingAltCount ++
         " images are missing alt text. Add descriptive alt text (especially on product/collection images)." }]
  else []

/-- Rule 4 (run-audit.js lines 121-127): fires iff
`scan.imageCount > 25 && scan.lazyCount < Math.floor(scan.imageCount * 0.5)`. -/
def rule4 (scan : ScanResult) : List Finding :=
  if scan.imageCount > 25 ∧ (scan.lazyCount : Int) < Int.floor ((scan.imageCount : ℚ) * 0.5) then
    [{ severity := Severity.MED
       type := "Images"
       recommendation := "Many images (" ++ toString scan.imageCount ++ ") but only " ++
         toString scan.lazyCount ++
         " lazy-loaded. Consider enabling lazy-loading for below-the-fold images." }]
  else []

/-- Rule 5 (run-audit.js lines 129-135): fires iff
`scan.hasAddToCart && !scan.hasShippingText`. -/
def rule5 (scan : ScanResult) : List Finding :=
  if scan.hasAddToCart && !scan.hasShippingText then
    [{ severity := Severity.LOW
       type := "Trust / Conversion"
       recommendation := "Page appears to have Add-to-Cart but little visible shipping/returns/guarantee text. Consider adding a short trust row near the ATC (shipping + guarantee)." }]
  else []

/-- The findings engine of run-audit.js lines 94-138: the five threshold
rules evaluated in source order, each appending its zero-or-one findings to
the accumulator in turn. -/
def prioritizeFindings (lhMobile : LighthouseResult) (scan : ScanResult) : List Finding :=
  rule1 lhMobile ++ rule2 lhMobile ++ rule3 scan ++ rule4 scan ++ rule5 scan

/-- One per-page record of the report (run-audit.js lines 224-230). -/
structure PageRecord where
  url : String
  mobile : LighthouseResult
  desktop : LighthouseResult
  scan : ScanResult
  findings : List Finding
deriving DecidableEq, Repr

/-- The LCP cell of the HTML summary table: `Math.round(p.mobile.metrics.lcp_ms ?? 0)`
interpolated into the row (run-audit.js line 148). -/
def renderLcpCell (m : Option ℚ) : String := toString (jsRound (m.getD 0))

/-- The CLS cell of the HTML summary table: `(p.mobile.metrics.cls ?? 0).toFixed(3)`
(run-audit.js line 149). -/
def renderClsCell (m : Option ℚ) : String := toFixed3 (m.getD 0)

/-- The seven cells of one summary-table row (run-audit.js lines 141-151):
URL, the four mobile scores, the rounded LCP and the CLS to three decimals. -/
def renderRow (p : PageRecord) : List String :=
  [p.url,
   toString p.mobile.scores.performance,
   toString p.mobile.scores.accessibility,
   toString p.mobile.scores.bestPractices,
   toString p.mobile.scores.seo,
   renderLcpCell p.mobile.metrics.lcp_ms,
   renderClsCell p.mobile.metrics.cls]

/-- Whether an `Except` value is a success. -/
def exOk {E A : Type} : Except E A → Bool
  | Except.ok _ => true
  | Except.error _ => false

/-- The per-page body of the main loop (run-audit.js lines 216-230): the two
scorer calls and the scan are awaited jointly; if any of the three fails the
whole page fails with that error and no `PageRecord` is assembled.  Each call
is represented by its outcome function from the URL. -/
def auditPage {E : Type} (mob desk : String → Except E LighthouseResult)
    (scn : String → Except E ScanResult) (url : String) : Except E PageRecord :=
  match mob url, desk url, scn url with
  | Except.ok lhMobile, Except.ok lhDesktop, Except.ok scan =>
    Except.ok { url := url
                mobile := lhMobile
                desktop := lhDesktop
                scan := scan
                findings := prioritizeFindings lhMobile scan }
  | Except.error e, _, _ => Except.error e
  | _, Except.error e, _ => Except.error e
  | _, _, Except.error e => Except.error e

/-- The sequential `for (const url of PAGES)` loop of run-audit.js lines
213-231, instrumented with the list of URLs whose processing was started:
the first failing page aborts the loop, so later URLs never appear in the
trace. -/
def processPages {E : Type} (audit : String → Except E PageRecord) :
    List String → Except E (List PageRecord) × List String
  | [] => (Except.ok [], [])
  | u :: rest =>
    match audit u with
    | Except.error e => (Except.error e, [u])
    | Except.ok r =>
      match processPages audit rest with
      | (Except.ok rs, log) => (Except.ok (r :: rs), u :: log)
      | (Except.error e, log) => (Except.error e, u :: log)

/-- What the webhook sink did: whether a POST was attempted, and the error it
logged (and absorbed), if any. -/
structure SinkOutcome (E : Type) where
  attempted : Bool
  logged : Option E
deriving DecidableEq, Repr

/-- The sink of run-audit.js lines 197-208: an empty webhook URL disables the
POST (`if (!GOOGLE_SHEETS_WEBHOOK_URL) return`); otherwise the POST is
attempted and any failure is caught and logged, never rethrown.  The POST's
own outcome is represented by `webhookPost`. -/
def postToGoogleSheets {E : Type} (webhookUrl : String)
    (webhookPost : Except E Unit) : SinkOutcome E :=
  if webhookUrl = "" then { attempted := false, logged := none }
  else
    { attempted := true
      logged := match webhookPost with
        | Except.ok _ => none
        | Except.error e => some e }

/-- The observable outcome of one run of `main` (run-audit.js lines 210-257):
the process exit code, the report files written, the URLs whose processing
was started, and what the webhook sink did. -/
structure RunOutcome (E : Type) where
  exitCode : Nat
  filesWritten : List String
  processed : List String
  sink : SinkOutcome E
deriving DecidableEq, Repr

/-- The run model (run-audit.js lines 210-257): the page loop runs first; an
error anywhere in it propagates to `main().catch`, which exits with code 1
before any report file is written; on success both report files are written,
the webhook sink runs, and the process exits 0. -/
def mainModel {E : Type} (pages : List String)
    (mob desk : String → Except E LighthouseResult)
    (scn : String → Except E ScanResult)
    (webhookUrl : String) (webhookPost : Except E Unit) : RunOutcome E :=
  match processPages (auditPage mob desk scn) pages with
  | (Except.error _, log) =>
    { exitCode := 1, filesWritten := [], processed := log
      sink := { attempted := false, logged := none } }
  | (Except.ok _, log) =>
    { exitCode := 0
      filesWritten := ["out/gritaudit-report.json", "out/gritaudit-report.html"]
      processed := log
      sink := postToGoogleSheets webhookUrl webhookPost }

/-- The configured page list (run-audit.js lines 259-266). -/
def PAGES : List String :=
  ["https://gritarmy.com/",
   "https://gritarmy.com/collections/socks",
   "https://gritarmy.com/cart",
   "https://gritarmy.com/products/high-compression-socks-adult",
   "https://gritarmy.com/products/premium-athletic-crew-socks",
   "https://gritarmy.com/products/grit-army-trifecta"]

/-- Modelled from the spec sentence for `hasAddToCart` as the claim reads it:
the match set is the selector-matched buttons restricted to those with
non-empty text content, and the flag is true iff some member's lowercased,
trimmed text contains both "add" and "cart", or the (restricted) match set is
non-empty at all.  Kept beside `scanPage` for comparison: the source applies
no text-content restriction to the match set. -/
def hasAddToCartClaim (doc : Document) : Bool :=
  let matched :=
    (doc.buttons.filter fun b => matchesCartSelector b && !(b.textContent == "")).map
      fun b => jsToLower (jsTrim b.textContent)
  matched.any (fun t => strIncludes t "add" && strIncludes t "cart") ||
    decide (matched.length > 0)

/-- A scan result with no images and no heuristic signals: triggers no rule. -/
def emptyScan : ScanResult :=
  { imageCount := 0, missingAltCount := 0, lazyCount := 0, hasSearch := false
    hasAddToCart := false, hasPrice := false, hasShippingText := false, images := [] }

/-- A mobile score report with the given LCP and CLS metrics and zero scores. -/
def mkMobile (lcp cls : Option ℚ) : LighthouseResult :=
  { scores := { performance := 0, accessibility := 0, bestPractices := 0, seo := 0 }
    metrics := { lcp_ms := lcp, cls := cls, tbt_ms := none, speedIndex_ms := none } }

/-- A scan result with the given image and lazy-load counts and nothing else. -/
def lazyScan (total lazy : Nat) : ScanResult :=
  { emptyScan with imageCount := total, lazyCount := lazy }

/-- A scan result satisfying the trigger conditions of rules 3, 4 and 5. -/
def allTriggerScan : ScanResult :=
  { imageCount := 30, missingAltCount := 3, lazyCount := 2, hasSearch := false
    hasAddToCart := true, hasPrice := false, hasShippingText := false, images := [] }

/-- A document whose only element of interest is one submit button with empty
text content. -/
def submitButtonDoc : Document :=
  { imgs := []
    buttons := [{ inCartAddForm := false, nameAttr := none
                  typeAttr := some "submit", textContent := "" }]
    hasSearchMatch := false
    bodyText := none }

/-- Rule 1 contributes a finding of type `ty` exactly when it fires and `ty`
is "Performance". -/
theorem rule1_any (m : LighthouseResult) (ty : String) :
    ((rule1 m).any fun f => f.type == ty) =
      ((match m.metrics.lcp_ms with
        | none => false
        | some v => decide (v > 3500)) && ("Performance" == ty)) := by
  unfold rule1
  cases m.metrics.lcp_ms with
  | none => simp
  | some v => by_cases h : v > 3500 <;> simp [h]

/-- Rule 2 contributes a finding of type `ty` exactly when it fires and `ty`
is "UX / Layout". -/
theorem rule2_any (m : LighthouseResult) (ty : String) :
    ((rule2 m).any fun f => f.type == ty) =
      ((match m.metrics.cls with
        | none => false
        | some v => decide (v > 0.1)) && ("UX / Layout" == ty)) := by
  unfold rule2
  cases m.metrics.cls with
  | none => simp
  | some v => by_cases h : v > 0.1 <;> simp [h]

/-- Rule 3 contributes a finding of type `ty` exactly when it fires and `ty`
is "Accessibility / SEO". -/
theorem rule3_any (s : ScanResult) (ty : String) :
    ((rule3 s).any fun f => f.type == ty) =
      (decide (s.missingAltCount > 0) && ("Accessibility / SEO" == ty)) := by
  unfold rule3
  by_cases h : s.missingAltCount > 0 <;> simp [h]

/-- Rule 4 contributes a finding of type `ty` exactly when it fires and `ty`
is "Images". -/
theorem rule4_any (s : ScanResult) (ty : String) :
    ((rule4 s).any fun f => f.type == ty) =
      (decide (s.imageCount > 25 ∧ (s.lazyCount : Int) < Int.floor ((s.imageCount : ℚ) * 0.5))
        && ("Images" == ty)) := by
  unfold rule4
  by_cases h : s.imageCount > 25 ∧ (s.lazyCount : Int) < Int.floor ((s.imageCount : ℚ) * 0.5) <;>
    simp [h]

/-- Rule 5 contributes a finding of type `ty` exactly when it fires and `ty`
is "Trust / Conversion". -/
theorem rule5_any (s : ScanResult) (ty : String) :
    ((rule5 s).any fun f => f.type == ty) =
      ((s.hasAddToCart && !s.hasShippingText) && ("Trust / Conversion" == ty)) := by
  unfold rule5
  by_cases h : (s.hasAddToCart && !s.hasShippingText) = true <;> simp [h]


/-- C1: an input satisfying all five trigger conditions yields exactly five
findings in the fixed order HIGH/Performance, MED/UX-Layout,
MED/Accessibility-SEO, MED/Images, LOW/Trust-Conversion; for every input the
finding list (projected to severity and type) is a sublist of that fixed
five-element list, so no rule contributes more than one finding and the
order is rule-evaluation order, never a severity re-sort; an input
triggering no rule yields the empty list.  The last two conjuncts evaluate
the engine at a concrete all-trigger input and a concrete no-trigger input. -/
theorem prioritizeFindings_rule_order :
    (∀ m s,
      (∃ v, m.metrics.lcp_ms = some v ∧ v > 3500) →
      (∃ v, m.metrics.cls = some v ∧ v > 0.1) →
      s.missingAltCount > 0 →
      (s.imageCount > 25 ∧ (s.lazyCount : Int) < Int.floor ((s.imageCount : ℚ) * 0.5)) →
      (s.hasAddToCart = true ∧ s.hasShippingText = false) →
      ((prioritizeFindings m s).map fun f => (f.severity, f.type)) =
        [(Severity.HIGH, "Performance"), (Severity.MED, "UX / Layout"),
         (Severity.MED, "Accessibility / SEO"), (Severity.MED, "Images"),
         (Severity.LOW, "Trust / Conversion")]) ∧
    (∀ m s, List.Sublist ((prioritizeFindings m s).map fun f => (f.severity, f.type))
        [(Severity.HIGH, "Performance"), (Severity.MED, "UX / Layout"),
         (Severity.MED, "Accessibility / SEO"), (Severity.MED, "Images"),
         (Severity.LOW, "Trust / Conversion")]) ∧
    (∀ m s,
      ¬ (∃ v, m.metrics.lcp_ms = some v ∧ v > 3500) →
      ¬ (∃ v, m.metrics.cls = some v ∧ v > 0.1) →
      ¬ s.missingAltCount > 0 →
      ¬ (s.imageCount > 25 ∧ (s.lazyCount : Int) < Int.floor ((s.imageCount : ℚ) * 0.5)) →
      ¬ (s.hasAddToCart = true ∧ s.hasShippingText = false) →
      prioritizeFindings m s = []) ∧
    ((prioritizeFindings (mkMobile (some 4000) (some 0.2)) allTriggerScan).map
        (fun f => (f.severity, f.type)) =
      [(Severity.HIGH, "Performance"), (Severity.MED, "UX / Layout"),
       (Severity.MED, "Accessibility / SEO"), (Severity.MED, "Images"),
       (Severity.LOW, "Trust / Conversion")]) ∧
    prioritizeFindings (mkMobile none none) emptyScan = [] := by
  have hall : ∀ m s,
      (∃ v, m.metrics.lcp_ms = some v ∧ v > 3500) →
      (∃ v, m.metrics.cls = some v ∧ v > 0.1) →
      s.missingAltCount > 0 →
      (s.imageCount > 25 ∧ (s.lazyCount : Int) < Int.floor ((s.imageCount : ℚ) * 0.5)) →
      (s.hasAddToCart = true ∧ s.hasShippingText = false) →
      ((prioritizeFindings m s).map fun f => (f.severity, f.type)) =
        [(Severity.HIGH, "Performance"), (Severity.MED, "UX / Layout"),
         (Severity.MED, "Accessibility / SEO"), (Severity.MED, "Images"),
         (Severity.LOW, "Trust / Conversion")] := by
    rintro m s ⟨v1, hv1, hgt1⟩ ⟨v2, hv2, hgt2⟩ h3 h4 h5
    simp [prioritizeFindings, rule1, rule2, rule3, rule4, rule5, hv1, hv2, hgt1, hgt2,
      h3, h4.1, h4.2, h5.1, h5.2]
  have hnone : ∀ m s,
      ¬ (∃ v, m.metrics.lcp_ms = some v ∧ v > 3500) →
      ¬ (∃ v, m.metrics.cls = some v ∧ v > 0.1) →
      ¬ s.missingAltCount > 0 →
      ¬ (s.imageCount > 25 ∧ (s.lazyCount : Int) < Int.floor ((s.imageCount : ℚ) * 0.5)) →
      ¬ (s.hasAddToCart = true ∧ s.hasShippingText = false) →
      prioritizeFindings m s = [] := by
    intro m s h1 h2 h3 h4 h5
    have e5 : (s.hasAddToCart && !s.hasShippingText) = false := by
      cases hA : s.hasAddToCart <;> cases hS : s.hasShippingText <;> simp_all
    unfold prioritizeFindings rule1 rule2 rule3 rule4 rule5
    cases hl : m.metrics.lcp_ms <;> cases hc : m.metrics.cls <;> simp_all
  refine ⟨hall, ?_, hnone, ?_, ?_⟩
  · intro m s
    have h1 : List.Sublist ((rule1 m).map fun f => (f.severity, f.type))
        [(Severity.HIGH, "Performance")] := by
      unfold rule1
      cases m.metrics.lcp_ms with
      | none => simp
      | some v => by_cases h : v > 3500 <;> simp [h]
    have h2 : List.Sublist ((rule2 m).map fun f => (f.severity, f.type))
        [(Severity.MED, "UX / Layout")] := by
      unfold rule2
      cases m.metrics.cls with
      | none => simp
      | some v => by_cases h : v > 0.1 <;> simp [h]
    have h3 : List.Sublist ((rule3 s).map fun f => (f.severity, f.type))
        [(Severity.MED, "Accessibility / SEO")] := by
      unfold rule3
      by_cases h : s.missingAltCount > 0 <;> simp [h]
    have h4 : List.Sublist ((rule4 s).map fun f => (f.severity, f.type))
        [(Severity.MED, "Images")] := by
      unfold rule4
      by_cases h : s.imageCount > 25 ∧ (s.lazyCount : Int) < Int.floor ((s.imageCount : ℚ) * 0.5) <;>
        simp [h]
    have h5 : List.Sublist ((rule5 s).map fun f => (f.severity, f.type))
        [(Severity.LOW, "Trust / Conversion")] := by
      unfold rule5
      cases hb : (s.hasAddToCart && !s.hasShippingText) <;> simp [hb]
    have hcat := h1.append (h2.append (h3.append (h4.append h5)))
    simpa [prioritizeFindings, List.map_append] using hcat
  · exact hall _ _ ⟨4000, rfl, by norm_num⟩ ⟨0.2, rfl, by norm_num⟩
      (by norm_num [allTriggerScan])
      ⟨by norm_num [allTriggerScan], by norm_num [allTriggerScan]⟩
      ⟨rfl, rfl⟩
  · exact hnone _ _ (by simp [mkMobile]) (by simp [mkMobile])
      (by simp [emptyScan]) (by simp [emptyScan]) (by simp [emptyScan])

/-- C2: the HIGH/Performance finding is produced iff `lcp_ms` is non-null
and strictly greater than 3500, and the MED/UX-Layout finding iff `cls` is
non-null and strictly greater than 0.1; at the boundaries an LCP of exactly
3500 does not trigger while 3501 does, and a CLS of exactly 0.1 does not
trigger while 0.1001 does. -/
theorem prioritizeFindings_thresholds :
    (∀ m s, (((prioritizeFindings m s).any fun f => f.type == "Performance") = true ↔
        ∃ v, m.metrics.lcp_ms = some v ∧ v > 3500)) ∧
    (∀ m s, (((prioritizeFindings m s).any fun f => f.type == "UX / Layout") = true ↔
        ∃ v, m.metrics.cls = some v ∧ v > 0.1)) ∧
    ((prioritizeFindings (mkMobile (some 3500) none) emptyScan).any
        fun f => f.type == "Performance") = false ∧
    ((prioritizeFindings (mkMobile (some 3501) none) emptyScan).any
        fun f => f.type == "Performance") = true ∧
    ((prioritizeFindings (mkMobile none (some 0.1)) emptyScan).any
        fun f => f.type == "UX / Layout") = false ∧
    ((prioritizeFindings (mkMobile none (some 0.1001)) emptyScan).any
        fun f => f.type == "UX / Layout") = true := by
  have hlcp : ∀ m s, (((prioritizeFindings m s).any fun f => f.type == "Performance") = true ↔
      ∃ v, m.metrics.lcp_ms = some v ∧ v > 3500) := by
    intro m s
    simp only [prioritizeFindings, List.any_append, rule1_any, rule2_any, rule3_any,
      rule4_any, rule5_any,
      (by decide : ("Performance" == "Performance") = true),
      (by decide : ("UX / Layout" == "Performance") = false),
      (by decide : ("Accessibility / SEO" == "Performance") = false),
      (by decide : ("Images" == "Performance") = false),
      (by decide : ("Trust / Conversion" == "Performance") = false),
      Bool.and_true, Bool.and_false, Bool.or_false]
    cases hl : m.metrics.lcp_ms with
    | none => simp
    | some v => simp
  have hcls : ∀ m s, (((prioritizeFindings m s).any fun f => f.type == "UX / Layout") = true ↔
      ∃ v, m.metrics.cls = some v ∧ v > 0.1) := by
    intro m s
    simp only [prioritizeFindings, List.any_append, rule1_any, rule2_any, rule3_any,
      rule4_any, rule5_any,
      (by decide : ("Performance" == "UX / Layout") = false),
      (by decide : ("UX / Layout" == "UX / Layout") = true),
      (by decide : ("Accessibility / SEO" == "UX / Layout") = false),
      (by decide : ("Images" == "UX / Layout") = false),
      (by decide : ("Trust / Conversion" == "UX / Layout") = false),
      Bool.and_true, Bool.and_false, Bool.or_false, Bool.false_or]
    cases hc : m.metrics.cls with
    | none => simp
    | some v => simp
  refine ⟨hlcp, hcls, ?_, ?_, ?_, ?_⟩
  · rcases Bool.eq_false_or_eq_true ((prioritizeFindings (mkMobile (some 3500) none)
        emptyScan).any fun f => f.type == "Performance") with h | h
    · exfalso
      rcases (hlcp _ _).mp h with ⟨v, hv, hgt⟩
      simp only [mkMobile, Option.some.injEq] at hv
      rw [← hv] at hgt
      exact absurd hgt (by norm_num)
    · exact h
  · exact (hlcp _ _).mpr ⟨3501, rfl, by norm_num⟩
  · rcases Bool.eq_false_or_eq_true ((prioritizeFindings (mkMobile none (some 0.1))
        emptyScan).any fun f => f.type == "UX / Layout") with h | h
    · exfalso
      rcases (hcls _ _).mp h with ⟨v, hv, hgt⟩
      simp only [mkMobile, Option.some.injEq] at hv
      rw [← hv] at hgt
      exact absurd hgt (by norm_num)
    · exact h
  · exact (hcls _ _).mpr ⟨0.1001, rfl, by norm_num⟩

/-- C3: the MED/Images finding is produced iff `imageCount > 25` and
`lazyCount < floor(imageCount * 0.5)`; concretely `floor(26 * 0.5) = 13`, so
26 images with 12 lazy-loaded trigger it and 26 images with 13 lazy-loaded
do not. -/
theorem prioritizeFindings_images_rule :
    (∀ m s, (((prioritizeFindings m s).any fun f => f.type == "Images") = true ↔
        s.imageCount > 25 ∧ (s.lazyCount : Int) < Int.floor ((s.imageCount : ℚ) * 0.5))) ∧
    Int.floor ((26 : ℚ) * 0.5) = 13 ∧
    ((prioritizeFindings (mkMobile none none) (lazyScan 26 12)).any
        fun f => f.type == "Images") = true ∧
    ((prioritizeFindings (mkMobile none none) (lazyScan 26 13)).any
        fun f => f.type == "Images") = false := by
  have hImg : ∀ m s, (((prioritizeFindings m s).any fun f => f.type == "Images") = true ↔
      s.imageCount > 25 ∧ (s.lazyCount : Int) < Int.floor ((s.imageCount : ℚ) * 0.5)) := by
    intro m s
    simp only [prioritizeFindings, List.any_append, rule1_any, rule2_any, rule3_any,
      rule4_any, rule5_any,
      (by decide : ("Performance" == "Images") = false),
      (by decide : ("UX / Layout" == "Images") = false),
      (by decide : ("Accessibility / SEO" == "Images") = false),
      (by decide : ("Images" == "Images") = true),
      (by decide : ("Trust / Conversion" == "Images") = false),
      Bool.and_true, Bool.and_false, Bool.or_false, Bool.false_or]
    simp
  refine ⟨hImg, by norm_num, ?_, ?_⟩
  · exact (hImg _ _).mpr
      ⟨by norm_num [lazyScan, emptyScan], by norm_num [lazyScan, emptyScan]⟩
  · rcases Bool.eq_false_or_eq_true ((prioritizeFindings (mkMobile none none)
        (lazyScan 26 13)).any fun f => f.type == "Images") with h | h
    · exfalso
      rcases (hImg _ _).mp h with ⟨h25, hfl⟩
      norm_num [lazyScan, emptyScan] at hfl
    · exact h

/-- Counting a Bool predicate and its negation partitions a list's length. -/
theorem length_filter_add_length_filter_not {α : Type} (p : α → Bool) (l : List α) :
    (l.filter p).length + (l.filter fun a => !(p a)).length = l.length := by
  induction l with
  | nil => rfl
  | cons a t ih => cases h : p a <;> simp [List.filter_cons, h] <;> omega

/-- Having a non-empty alt attribute is the complement of the scanner's
missing-alt filter. -/
theorem altNonEmpty_eq_not (i : ImageRecord) : altNonEmpty i = !(altMissing i) := by
  unfold altNonEmpty altMissing
  cases i.alt <;> simp

/-- C4: for every scan of any document, `missingAltCount ≤ imageCount`,
`lazyCount ≤ imageCount`, and `missingAltCount` plus the number of images of
the full inventory with a non-empty alt attribute equals `imageCount`. -/
theorem scanPage_count_invariants : ∀ doc : Document,
    (scanPage doc).missingAltCount ≤ (scanPage doc).imageCount ∧
    (scanPage doc).lazyCount ≤ (scanPage doc).imageCount ∧
    (scanPage doc).missingAltCount +
      ((doc.imgs.map toImageRecord).filter altNonEmpty).length = (scanPage doc).imageCount := by
  intro doc
  refine ⟨?_, ?_, ?_⟩
  · simpa [scanPage] using List.length_filter_le altMissing (doc.imgs.map toImageRecord)
  · simpa [scanPage] using List.length_filter_le isLazy (doc.imgs.map toImageRecord)
  · have hcong : (doc.imgs.map toImageRecord).filter altNonEmpty =
        (doc.imgs.map toImageRecord).filter fun a => !(altMissing a) :=
      List.filter_congr fun a _ => altNonEmpty_eq_not a
    have hpart := length_filter_add_length_filter_not altMissing (doc.imgs.map toImageRecord)
    simp only [scanPage, hcong]
    exact hpart

/-- A document consisting of 41 attribute-less images. -/
def fortyOneImgDoc : Document :=
  { imgs := List.replicate 41
      { src := none, alt := none, width := none, height := none, loading := none }
    buttons := []
    hasSearchMatch := false
    bodyText := none }

/-- C6: the returned image list is the first 40 inventory records in
document order, while `imageCount`, `missingAltCount` and `lazyCount` are
computed over the full inventory and are unaffected by the truncation; with
41 images the full count strictly exceeds the returned list's length. -/
theorem scanPage_images_truncation :
    (∀ doc : Document,
      (scanPage doc).images = (doc.imgs.map toImageRecord).take 40 ∧
      (scanPage doc).images.length ≤ 40 ∧
      (scanPage doc).imageCount = (doc.imgs.map toImageRecord).length ∧
      (scanPage doc).missingAltCount = ((doc.imgs.map toImageRecord).filter altMissing).length ∧
      (scanPage doc).lazyCount = ((doc.imgs.map toImageRecord).filter isLazy).length ∧
      ((doc.imgs.map toImageRecord).length > 40 →
        (scanPage doc).images.length < (scanPage doc).imageCount)) ∧
    (scanPage fortyOneImgDoc).imageCount = 41 ∧
    (scanPage fortyOneImgDoc).images.length = 40 := by
  refine ⟨?_, by decide, by decide⟩
  intro doc
  refine ⟨rfl, ?_, rfl, rfl, rfl, ?_⟩
  · exact List.length_take_le 40 (doc.imgs.map toImageRecord)
  · intro h
    simp only [List.length_map] at h
    simp [scanPage, List.length_take, List.length_map]
    omega

/-- C5 counterexample: on a document whose only matched element is a submit
button with empty text content, the source's `hasAddToCart` is true, while
the claim's reading (match set restricted to buttons with non-empty text
content) is false. -/
theorem hasAddToCart_claim_counterexample :
    (scanPage submitButtonDoc).hasAddToCart = true ∧
    hasAddToCartClaim submitButtonDoc = false := by
  constructor
  · rw [show (scanPage submitButtonDoc).hasAddToCart =
      (((submitButtonDoc.buttons.filter matchesCartSelector).map
          fun b => jsToLower (jsTrim b.textContent)).any
            (fun t => strIncludes t "add" && strIncludes t "cart") ||
        decide (((submitButtonDoc.buttons.filter matchesCartSelector).map
          fun b => jsToLower (jsTrim b.textContent)).length > 0)) from rfl]
    rw [Bool.or_eq_true]
    right
    decide
  · decide

/-- C5 amended: the source applies no text-content restriction to the match
set, so `hasAddToCart` is true iff some matched button's lowercased trimmed
text contains both "add" and "cart" or the match set is non-empty at all —
equivalently, iff some button matches the selector (a form with `cart/add`
in its action containing a button, a button named `add`, or any submit
button), regardless of its text content. -/
theorem scanPage_hasAddToCart_amended : ∀ doc : Document,
    ((scanPage doc).hasAddToCart = true ↔ ∃ b ∈ doc.buttons, matchesCartSelector b = true) := by
  intro doc
  simp only [scanPage]
  constructor
  · intro h
    have hne : ((doc.buttons.filter matchesCartSelector).map
        fun b => jsToLower (jsTrim b.textContent)) ≠ [] := by
      rw [Bool.or_eq_true] at h
      rcases h with h | h
      · rcases List.any_eq_true.mp h with ⟨t, ht, _⟩
        exact List.ne_nil_of_mem ht
      · exact List.ne_nil_of_length_pos (of_decide_eq_true h)
    have hfil : doc.buttons.filter matchesCartSelector ≠ [] := by
      intro hf
      apply hne
      rw [hf]
      rfl
    rcases List.exists_mem_of_ne_nil _ hfil with ⟨b, hb⟩
    exact ⟨b, (List.mem_filter.mp hb).1, (List.mem_filter.mp hb).2⟩
  · rintro ⟨b, hb, hm⟩
    rw [Bool.or_eq_true]
    right
    apply decide_eq_true
    have hmem : b ∈ doc.buttons.filter matchesCartSelector := List.mem_filter.mpr ⟨hb, hm⟩
    have hmap : jsToLower (jsTrim b.textContent) ∈
        (doc.buttons.filter matchesCartSelector).map fun b => jsToLower (jsTrim b.textContent) :=
      List.mem_map_of_mem _ hmem
    exact List.length_pos.mpr (List.ne_nil_of_mem hmap)

/-- Rounding the rational zero gives the integer zero. -/
theorem jsRound_zero : jsRound 0 = 0 := by
  unfold jsRound
  norm_num

/-- A Lighthouse report with every category score and every audit absent. -/
def nullLhr : Lhr :=
  { categories := { performance := { score := none }, accessibility := { score := none }
                    bestPractices := { score := none }, seo := { score := none } }
    audits := { largestContentfulPaint := none, cumulativeLayoutShift := none
                totalBlockingTime := none, speedIndex := none } }

/-- A Lighthouse report whose LCP audit carries a measured value of exactly 0. -/
def zeroLcpLhr : Lhr :=
  { nullLhr with
    audits := { largestContentfulPaint := some { numericValue := some 0 }
                cumulativeLayoutShift := none, totalBlockingTime := none
                speedIndex := none } }

/-- C7: each score field is 0 when the underlying category score is absent;
each metric field is the `none` sentinel exactly when its audit is missing
or carries no numeric value, so an absent measurement is never turned into
0; and a measured value of exactly 0 is preserved as `some 0`.  The last two
conjuncts evaluate the adapter on an all-absent report and on a report whose
LCP measured exactly 0. -/
theorem runLighthouse_defaults :
    (∀ lhr : Lhr,
      (lhr.categories.performance.score = none → (runLighthouse lhr).scores.performance = 0) ∧
      (lhr.categories.accessibility.score = none → (runLighthouse lhr).scores.accessibility = 0) ∧
      (lhr.categories.bestPractices.score = none → (runLighthouse lhr).scores.bestPractices = 0) ∧
      (lhr.categories.seo.score = none → (runLighthouse lhr).scores.seo = 0) ∧
      ((runLighthouse lhr).metrics.lcp_ms = none ↔
        lhr.audits.largestContentfulPaint = none ∨
          ∃ a, lhr.audits.largestContentfulPaint = some a ∧ a.numericValue = none) ∧
      ((runLighthouse lhr).metrics.cls = none ↔
        lhr.audits.cumulativeLayoutShift = none ∨
          ∃ a, lhr.audits.cumulativeLayoutShift = some a ∧ a.numericValue = none) ∧
      ((runLighthouse lhr).metrics.tbt_ms = none ↔
        lhr.audits.totalBlockingTime = none ∨
          ∃ a, lhr.audits.totalBlockingTime = some a ∧ a.numericValue = none) ∧
      ((runLighthouse lhr).metrics.speedIndex_ms = none ↔
        lhr.audits.speedIndex = none ∨
          ∃ a, lhr.audits.speedIndex = some a ∧ a.numericValue = none) ∧
      (∀ a, lhr.audits.largestContentfulPaint = some a → a.numericValue = some 0 →
        (runLighthouse lhr).metrics.lcp_ms = some 0) ∧
      (∀ a, lhr.audits.cumulativeLayoutShift = some a → a.numericValue = some 0 →
        (runLighthouse lhr).metrics.cls = some 0) ∧
      (∀ a, lhr.audits.totalBlockingTime = some a → a.numericValue = some 0 →
        (runLighthouse lhr).metrics.tbt_ms = some 0) ∧
      (∀ a, lhr.audits.speedIndex = some a → a.numericValue = some 0 →
        (runLighthouse lhr).metrics.speedIndex_ms = some 0)) ∧
    runLighthouse nullLhr =
      { scores := { performance := 0, accessibility := 0, bestPractices := 0, seo := 0 }
        metrics := { lcp_ms := none, cls := none, tbt_ms := none, speedIndex_ms := none } } ∧
    (runLighthouse zeroLcpLhr).metrics.lcp_ms = some 0 := by
  refine ⟨?_, ?_, rfl⟩
  · intro lhr
    refine ⟨?_, ?_, ?_, ?_, ?_, ?_, ?_, ?_, ?_, ?_, ?_, ?_⟩
    · intro h
      simp [runLighthouse, h, jsRound_zero]
    · intro h
      simp [runLighthouse, h, jsRound_zero]
    · intro h
      simp [runLighthouse, h, jsRound_zero]
    · intro h
      simp [runLighthouse, h, jsRound_zero]
    · cases ha : lhr.audits.largestContentfulPaint with
      | none => simp [runLighthouse, ha]
      | some a => simp [runLighthouse, ha]
    · cases ha : lhr.audits.cumulativeLayoutShift with
      | none => simp [runLighthouse, ha]
      | some a => simp [runLighthouse, ha]
    · cases ha : lhr.audits.totalBlockingTime with
      | none => simp [runLighthouse, ha]
      | some a => simp [runLighthouse, ha]
    · cases ha : lhr.audits.speedIndex with
      | none => simp [runLighthouse, ha]
      | some a => simp [runLighthouse, ha]
    · intro a ha h0
      simp [runLighthouse, ha, h0]
    · intro a ha h0
      simp [runLighthouse, ha, h0]
    · intro a ha h0
      simp [runLighthouse, ha, h0]
    · intro a ha h0
      simp [runLighthouse, ha, h0]
  · have h : jsRound ((0 : ℚ) * 100) = 0 := by
      unfold jsRound
      norm_num
    simp [runLighthouse, nullLhr, h, jsRound_zero]

/-- If every page before `u` audits successfully and `u` fails, the page loop
stops at `u` with its error: the pages after `u` are never started. -/
theorem processPages_error_of {E : Type} (audit : String → Except E PageRecord) :
    ∀ (pre : List String) (u : String) (post : List String),
      (∀ v ∈ pre, exOk (audit v) = true) →
      exOk (audit u) = false →
      ∃ e, processPages audit (pre ++ u :: post) = (Except.error e, pre ++ [u]) := by
  intro pre
  induction pre with
  | nil =>
    intro u post _ hu
    cases ha : audit u with
    | ok r =>
      rw [ha] at hu
      simp [exOk] at hu
    | error e => exact ⟨e, by simp [processPages, ha]⟩
  | cons a t ih =>
    intro u post hpre hu
    have ha : exOk (audit a) = true := hpre a (by simp)
    cases haa : audit a with
    | error e =>
      rw [haa] at ha
      simp [exOk] at ha
    | ok r =>
      rcases ih u post (fun v hv => hpre v (by simp [hv])) hu with ⟨e, he⟩
      refine ⟨e, ?_⟩
      simp [processPages, haa, he]

/-- If every page audits successfully, the page loop returns a record list
and its trace covers exactly the configured pages in order. -/
theorem processPages_ok_of {E : Type} (audit : String → Except E PageRecord) :
    ∀ pages : List String, (∀ v ∈ pages, exOk (audit v) = true) →
      ∃ rs, processPages audit pages = (Except.ok rs, pages) := by
  intro pages
  induction pages with
  | nil => exact fun _ => ⟨[], rfl⟩
  | cons a t ih =>
    intro hall
    have ha : exOk (audit a) = true := hall a (by simp)
    cases haa : audit a with
    | error e =>
      rw [haa] at ha
      simp [exOk] at ha
    | ok r =>
      rcases ih (fun v hv => hall v (by simp [hv])) with ⟨rs, hrs⟩
      exact ⟨r :: rs, by simp [processPages, haa, hrs]⟩

/-- C8: a page's audit succeeds exactly when its mobile score, desktop score
and scan all succeed; if any page's audit fails after a prefix of successes,
the whole run aborts — exit code 1, no report file written, and no page
after the failing one is processed; if every page succeeds, the run exits 0
with both report files written and every page processed in order. -/
theorem mainModel_abort_policy {E : Type}
    (mob desk : String → Except E LighthouseResult) (scn : String → Except E ScanResult)
    (wu : String) (wp : Except E Unit) :
    (∀ u, exOk (auditPage mob desk scn u) =
      (exOk (mob u) && (exOk (desk u) && exOk (scn u)))) ∧
    (∀ pre u post,
      (∀ v ∈ pre, exOk (auditPage mob desk scn v) = true) →
      exOk (auditPage mob desk scn u) = false →
      mainModel (pre ++ u :: post) mob desk scn wu wp =
        { exitCode := 1, filesWritten := [], processed := pre ++ [u]
          sink := { attempted := false, logged := none } }) ∧
    (∀ pages, (∀ v ∈ pages, exOk (auditPage mob desk scn v) = true) →
      (mainModel pages mob desk scn wu wp).exitCode = 0 ∧
      (mainModel pages mob desk scn wu wp).filesWritten =
        ["out/gritaudit-report.json", "out/gritaudit-report.html"] ∧
      (mainModel pages mob desk scn wu wp).processed = pages) := by
  refine ⟨?_, ?_, ?_⟩
  · intro u
    unfold auditPage
    cases hm : mob u <;> cases hd : desk u <;> cases hs : scn u <;> simp [exOk]
  · intro pre u post hpre hu
    rcases processPages_error_of (auditPage mob desk scn) pre u post hpre hu with ⟨e, he⟩
    unfold mainModel
    rw [he]
  · intro pages hall
    rcases processPages_ok_of (auditPage mob desk scn) pages hall with ⟨rs, hrs⟩
    unfold mainModel
    rw [hrs]
    exact ⟨rfl, rfl, rfl⟩

/-- C9: an empty webhook URL disables the sink (no POST is attempted); the
exit code, the files written and the set of processed pages never depend on
the webhook POST's outcome; and with a non-empty URL a failing POST is
logged and absorbed at the sink boundary. -/
theorem webhook_sink_best_effort {E : Type} (pages : List String)
    (mob desk : String → Except E LighthouseResult) (scn : String → Except E ScanResult)
    (wu : String) (wp wp2 : Except E Unit) :
    (wu = "" → (mainModel pages mob desk scn wu wp).sink.attempted = false) ∧
    ((mainModel pages mob desk scn wu wp).exitCode =
        (mainModel pages mob desk scn wu wp2).exitCode ∧
      (mainModel pages mob desk scn wu wp).filesWritten =
        (mainModel pages mob desk scn wu wp2).filesWritten ∧
      (mainModel pages mob desk scn wu wp).processed =
        (mainModel pages mob desk scn wu wp2).processed) ∧
    (∀ e : E, wu ≠ "" → postToGoogleSheets wu (Except.error e) =
      { attempted := true, logged := some e }) := by
  refine ⟨?_, ?_, ?_⟩
  · intro hw
    unfold mainModel
    cases h : processPages (auditPage mob desk scn) pages with
    | mk res log => cases res <;> simp [postToGoogleSheets, hw]
  · unfold mainModel
    cases h : processPages (auditPage mob desk scn) pages with
    | mk res log => cases res <;> exact ⟨rfl, rfl, rfl⟩
  · intro e hw
    simp [postToGoogleSheets, hw]

/-- C10: in the HTML summary table, a page whose mobile LCP metric is the
null sentinel renders 0 in the LCP cell and a null CLS renders "0.000" in
the CLS cell — exactly what a measured value of 0 renders, so the table
cannot distinguish an unmeasured metric from a measured 0. -/
theorem renderRow_null_metric_cells :
    (∀ p : PageRecord, p.mobile.metrics.lcp_ms = none →
      (renderRow p).get? 5 = some "0") ∧
    (∀ p : PageRecord, p.mobile.metrics.cls = none →
      (renderRow p).get? 6 = some "0.000") ∧
    renderLcpCell none = renderLcpCell (some 0) ∧
    renderClsCell none = renderClsCell (some 0) := by
  have hmul : jsRound ((0 : ℚ) * 1000) = 0 := by
    unfold jsRound
    norm_num
  have hlcp : renderLcpCell none = "0" := by
    show toString (jsRound ((none : Option ℚ).getD 0)) = "0"
    rw [show ((none : Option ℚ).getD 0) = (0 : ℚ) from rfl, jsRound_zero]
    decide
  have hcls : renderClsCell none = "0.000" := by
    show toFixed3 ((none : Option ℚ).getD 0) = "0.000"
    rw [show ((none : Option ℚ).getD 0) = (0 : ℚ) from rfl]
    unfold toFixed3 toFixed3Nonneg
    rw [if_neg (by norm_num : ¬ (0 : ℚ) < 0)]
    simp only [hmul]
    decide
  refine ⟨?_, ?_, ?_, ?_⟩
  · intro p h
    simp [renderRow, h, hlcp]
  · intro p h
    simp [renderRow, h, hcls]
  · rw [hlcp]
    show "0" = toString (jsRound ((some (0 : ℚ)).getD 0))
    rw [show ((some (0 : ℚ)).getD 0) = (0 : ℚ) from rfl, jsRound_zero]
    decide
  · rw [hcls]
    show "0.000" = toFixed3 ((some (0 : ℚ)).getD 0)
    rw [show ((some (0 : ℚ)).getD 0) = (0 : ℚ) from rfl]
    unfold toFixed3 toFixed3Nonneg
    rw [if_neg (by norm_num : ¬ (0 : ℚ) < 0)]
    simp only [hmul]
    decide
